import Mathlib

/-!
Verification of the metadata-extraction and placement logic of
src/ufc.py (dinghy6/sabnzbd-scripts) against its natural-language
specification.

The Python source is shallowly embedded: the pure string-parsing
functions (get_event_number, get_fighter_names, get_edition,
get_resolution) become Lean functions over lists of characters that
mirror the semantics of the regular expressions in the source,
including scan order, alternation order, greediness and backtracking;
the stateful placement functions (find_names, find_editions,
construct_path, move_file, rename_and_move) become functions over an
explicit filesystem state, with process termination via exit_log /
sys.exit modelled as the error branch of an Except value.

The body of construct_path (source lines 605-648) is, in the file as
committed, the contents of a string literal: the triple quote opened at
line 604 is closed only at line 652 (see the lexical model at the end
of the definitions).  The algorithm embedded here is the algorithm that
text spells out, since the placement claims are about it.

Permission and ownership normalization (check_permissions,
fix_permissions, the chmod/chown effects, and the refresh_perms flag,
which defaults to False) is out of scope per the specification and is
embedded as the identity on the filesystem state.  The failure modes of
move_file's try block are embedded exactly, though: the except
shutil.Error handler returns a caught move failure as a value, while an
OSError raised inside the block — by shutil.move's copy fallback or by
the os.chmod that follows the move — is caught by no handler and
terminates the process with a traceback.
-/

namespace UfcScript

/-- Characters of a string, the representation all matchers work on. -/
abbrev Chars := List Char

/-- Numeric code of an ASCII character after lower-casing, used for all
case-insensitive comparisons (every regex in the source is compiled
with re.IGNORECASE). -/
def lowerNat (c : Char) : Nat :=
  if 65 ≤ c.toNat ∧ c.toNat ≤ 90 then c.toNat + 32 else c.toNat

/-- Case-insensitive comparison of a subject character against a
pattern character: both sides are lower-cased. -/
def charIsCI (c : Char) (l : Char) : Bool :=
  lowerNat c == lowerNat l

/-- Test for an ASCII decimal digit, the regex class backslash-d as it
applies to the ASCII names this script processes. -/
def isDigitC (c : Char) : Bool :=
  48 ≤ c.toNat && c.toNat ≤ 57

/-- Test for an ASCII letter. -/
def isAlphaC (c : Char) : Bool :=
  (65 ≤ c.toNat && c.toNat ≤ 90) || (97 ≤ c.toNat && c.toNat ≤ 122)

/-- Test for the class [a-z-] under IGNORECASE: letters and hyphen. -/
def isNameC (c : Char) : Bool :=
  isAlphaC c || c == '-'

/-- Test for a word character, the regex class backslash-w restricted
to ASCII: letters, digits and underscore. -/
def isWordC (c : Char) : Bool :=
  isAlphaC c || isDigitC c || c == '_'

/-- Test for the characters replaced by the normalization step
re.sub(r"[ . backslash-s _ ]", " ", name): dot, underscore and the
ASCII whitespace characters matched by backslash-s.  Each such
character is replaced by one space (the substitution is per character,
not per run). -/
def isSepC (c : Char) : Bool :=
  c == '.' || c == '_' || c == ' ' || c == '\t' || c == '\n' ||
  c == '\r' || c == '\x0b' || c == '\x0c'

/-- Normalization applied to every name before extraction:
re.sub(r"[ . backslash-s _ ]", " ", name), one space per separator
character. -/
def normalizeName (s : String) : Chars :=
  s.data.map (fun c => if isSepC c then ' ' else c)

/-- Case-insensitive literal match: the pattern (given in lower case)
must be a prefix of the subject; returns the rest of the subject. -/
def matchLitCI : Chars → Chars → Option Chars
  | [], cs => some cs
  | _ :: _, [] => none
  | l :: ls, c :: cs => if charIsCI c l then matchLitCI ls cs else none

/-- Boolean form of the case-insensitive prefix test, used by the
negative lookaheads of the fighter-name pattern. -/
def isPrefixCIb (lit : Chars) (cs : Chars) : Bool :=
  (matchLitCI lit cs).isSome

/-- Consume one space if present: the semantics of the regex piece
"space?" in every context it occurs in the source, where the following
atom can never match a space, so greedy matching without backtracking
is exact. -/
def optSpace : Chars → Chars
  | ' ' :: cs => cs
  | cs => cs

/-- Maximal run of characters satisfying p, returned together with the
rest: the semantics of a greedy plus over a character class. -/
def takeRun (p : Char → Bool) : Chars → Chars × Chars
  | [] => ([], [])
  | c :: cs =>
    if p c then
      let r := takeRun p cs
      (c :: r.1, r.2)
    else ([], c :: cs)

/-- String made from a character list. -/
def ofChars (cs : Chars) : String := String.mk cs

/-- Detection of the event-number patterns of get_event_number at one
position of the subject, trying the three regex alternatives in order:
ufc space? digits, ufc space? fight space? night space digits,
ufc space? on space? word+ space digits.  Returns the already formatted
event number exactly as the source builds it from the matched group. -/
def eventAltsAt (cs : Chars) : Option String :=
  match matchLitCI ['u', 'f', 'c'] cs with
  | none => none
  | some rest0 =>
    let rest1 := optSpace rest0
    let dig := takeRun isDigitC rest1
    if dig.1 ≠ [] then
      some ("UFC " ++ ofChars dig.1)
    else
      match matchLitCI ['f', 'i', 'g', 'h', 't'] rest1 with
      | some restF =>
        let restF1 := optSpace restF
        match matchLitCI ['n', 'i', 'g', 'h', 't'] restF1 with
        | some restN =>
          match restN with
          | ' ' :: restN1 =>
            let dig2 := takeRun isDigitC restN1
            if dig2.1 ≠ [] then some ("UFC Fight Night " ++ ofChars dig2.1)
            else none
          | _ => none
        | none => none
      | none =>
        match matchLitCI ['o', 'n'] rest1 with
        | some restO =>
          let restO1 := optSpace restO
          let w := takeRun isWordC restO1
          if w.1 = [] then none
          else
            match w.2 with
            | ' ' :: restW =>
              let dig3 := takeRun isDigitC restW
              if dig3.1 ≠ [] then
                some ("UFC on " ++
                  ofChars ((w.1 ++ [' '] ++ dig3.1).map Char.toUpper))
              else none
            | _ => none
        | none => none

/-- Leftmost search for the event-number pattern: re.search tries each
start position from the left, and at each position the alternatives in
order (eventAltsAt). -/
def eventScan : Chars → Option String
  | [] => none
  | c :: cs =>
    match eventAltsAt (c :: cs) with
    | some r => some r
    | none => eventScan cs

/-- Embedding of get_event_number (src/ufc.py lines 385-414): extracts
and formats the UFC event number, or returns the empty string. -/
def get_event_number (s : Chars) : String :=
  (eventScan s).getD ""

/-- Detection of one edition keyword at one position, in the regex
alternation order: early prelims, prelims, preliminary. -/
def editionAltAt (cs : Chars) : Option String :=
  if (matchLitCI "early prelims".data cs).isSome then some "early prelims"
  else if (matchLitCI "prelims".data cs).isSome then some "prelims"
  else if (matchLitCI "preliminary".data cs).isSome then some "preliminary"
  else none

/-- Leftmost search for an edition keyword. -/
def editionScan : Chars → Option String
  | [] => none
  | c :: cs =>
    match editionAltAt (c :: cs) with
    | some r => some r
    | none => editionScan cs

/-- Enum for UFC event editions, as in the source. -/
inductive Edition where
  | EARLY_PRELIMS
  | PRELIMS
  | MAIN_EVENT
deriving DecidableEq, Repr

/-- Display value of an edition, the value attribute of the Python
enum. -/
def Edition.value : Edition → String
  | .EARLY_PRELIMS => "Early Prelims"
  | .PRELIMS => "Prelims"
  | .MAIN_EVENT => "Main Event"

/-- Embedding of get_edition (src/ufc.py lines 452-475): keyword search
with the synonym map, defaulting to Main Event. -/
def get_edition (s : Chars) : Edition :=
  match editionScan s with
  | some "early prelims" => Edition.EARLY_PRELIMS
  | some "prelims" => Edition.PRELIMS
  | some "preliminary" => Edition.PRELIMS
  | _ => Edition.MAIN_EVENT

/-- Test for the class [pi] under IGNORECASE. -/
def isPIC (c : Char) : Bool :=
  charIsCI c 'p' || charIsCI c 'i'

/-- Substitution re.sub(r"4k|uhd", "2160p", name, flags=IGNORECASE):
left-to-right, non-overlapping, each match replaced by the literal
lower-case 2160p, alternatives tried in order at each position. -/
def subRes : Chars → Chars
  | [] => []
  | [c] => [c]
  | [c1, c2] =>
    if charIsCI c1 '4' && charIsCI c2 'k' then "2160p".data
    else c1 :: subRes [c2]
  | c1 :: c2 :: c3 :: rest =>
    if charIsCI c1 '4' && charIsCI c2 'k' then
      "2160p".data ++ subRes (c3 :: rest)
    else if charIsCI c1 'u' && charIsCI c2 'h' && charIsCI c3 'd' then
      "2160p".data ++ subRes rest
    else c1 :: subRes (c2 :: c3 :: rest)

/-- Match of the resolution token backslash-d{3,4}[pi] at one position:
greedy, so four digits are tried before three; when the fourth
character is a digit the three-digit alternative cannot be followed by
[pi] and the whole position fails, exactly as the regex backtracks. -/
def resTokenAt (cs : Chars) : Option Chars :=
  match cs with
  | d1 :: d2 :: d3 :: rest =>
    if isDigitC d1 && isDigitC d2 && isDigitC d3 then
      match rest with
      | d4 :: rest2 =>
        if isDigitC d4 then
          match rest2 with
          | c5 :: _ =>
            if isPIC c5 then some [d1, d2, d3, d4, c5] else none
          | [] => none
        else if isPIC d4 then some [d1, d2, d3, d4]
        else none
      | [] => none
    else none
  | _ => none

/-- Leftmost search for the resolution token. -/
def resScan : Chars → Option Chars
  | [] => none
  | c :: cs =>
    match resTokenAt (c :: cs) with
    | some t => some t
    | none => resScan cs

/-- Embedding of get_resolution (src/ufc.py lines 478-494): 4k/uhd are
substituted by 2160p, then the first match of backslash-d{3,4}[pi] is
returned in the casing the substituted name has there, or the empty
string. -/
def get_resolution (s : Chars) : String :=
  match resScan (subRes s) with
  | none => ""
  | some t => ofChars t

/-- Words excluded by the negative lookahead at the start of each
repetition of the name1 group of the fighter-name pattern. -/
def excl1 : List Chars :=
  ["ppv".data, "main".data, "event".data, "prelim".data, "preliminary".data]

/-- Words excluded by the negative lookahead at the start of each
repetition of the name2 group of the fighter-name pattern. -/
def excl2 : List Chars :=
  ["ppv".data, "main".data, "prelim".data, "early".data, "web".data]

/-- Evaluation of a negative-lookahead alternation: true when some
excluded word is a case-insensitive prefix of the subject, in which
case the repetition may not start here. -/
def excludedAt (excl : List Chars) (cs : Chars) : Bool :=
  excl.any (fun w => isPrefixCIb w cs)

/-- Repetitions of the name1 group, each a non-excluded [a-z-]+ run
followed by a mandatory space.  The entry for k repetitions carries the
accumulated captured text (spaces included) and the rest of the
subject; entries are listed for k = 1 up to the greedy maximum.  The
run is maximal and cannot be shortened by backtracking, because a
shorter run would have to be followed by a space where a run character
stands.  Fuel bounds the recursion; each repetition consumes at least
two characters, so subject length suffices. -/
def reps1 : Nat → Chars → List (Chars × Chars)
  | 0, _ => []
  | fuel + 1, cs =>
    if excludedAt excl1 cs then []
    else
      let r := takeRun isNameC cs
      if r.1 = [] then []
      else
        match r.2 with
        | ' ' :: rest =>
          let cap := r.1 ++ [' ']
          (cap, rest) :: (reps1 fuel rest).map (fun pr => (cap ++ pr.1, pr.2))
        | _ => []

/-- Repetitions of the name2 group, each a non-excluded [a-z-]+ run
followed by a space or the end of the subject. -/
def reps2 : Nat → Chars → List (Chars × Chars)
  | 0, _ => []
  | fuel + 1, cs =>
    if excludedAt excl2 cs then []
    else
      let r := takeRun isNameC cs
      if r.1 = [] then []
      else
        match r.2 with
        | ' ' :: rest =>
          let cap := r.1 ++ [' ']
          (cap, rest) :: (reps2 fuel rest).map (fun pr => (cap ++ pr.1, pr.2))
        | [] => [(r.1, [])]
        | _ => []

/-- Optional rematch-number group: one digit not itself followed by a
digit (the lookahead forbids two or more digits at this position). -/
def numAt : Chars → Option Char
  | [] => none
  | [d] => if isDigitC d then some d else none
  | d :: e :: _ => if isDigitC d && !isDigitC e then some d else none

/-- Continuation of the fighter-name pattern after k repetitions of
name1, tried for k from the greedy maximum down to one (the argument is
the reversed repetition list): the literal vs, an optional space, a
greedy name2 (whose own continuation never fails, so its maximal
repetition count is final), and the optional rematch digit. -/
def tryVs : List (Chars × Chars) → Option (Chars × Chars × Option Char)
  | [] => none
  | (cap1, rest) :: more =>
    match
      (match matchLitCI ['v', 's'] rest with
       | some rest2 =>
         let rest3 := optSpace rest2
         match (reps2 (rest3.length + 1) rest3).getLast? with
         | some (cap2, rest4) => some (cap1, cap2, numAt rest4)
         | none => none
       | none => none)
    with
    | some r => some r
    | none => tryVs more

/-- Whole fighter-name pattern anchored at one position. -/
def fighterAt (cs : Chars) : Option (Chars × Chars × Option Char) :=
  tryVs ((reps1 (cs.length + 1) cs).reverse)

/-- Leftmost search for the fighter-name pattern.  The flag records the
lookbehind (?:(?<= )|(?<=^)): a match may only start at the beginning
of the subject or right after a space. -/
def fighterScan (valid : Bool) : Chars → Option (Chars × Chars × Option Char)
  | [] => none
  | c :: cs =>
    match (if valid then fighterAt (c :: cs) else none) with
    | some r => some r
    | none => fighterScan (c == ' ') cs

/-- ASCII whitespace stripped by str.strip on both ends. -/
def isStripC (c : Char) : Bool :=
  c == ' ' || c == '\t' || c == '\n' || c == '\r' || c == '\x0b' || c == '\x0c'

/-- Embedding of str.strip. -/
def pyStrip (cs : Chars) : Chars :=
  ((cs.dropWhile isStripC).reverse.dropWhile isStripC).reverse

/-- Embedding of str.title for ASCII text: a letter is upper-cased when
the previous character is not a letter, lower-cased otherwise. -/
def pyTitleGo (prevCased : Bool) : Chars → Chars
  | [] => []
  | c :: cs =>
    if isAlphaC c then
      (if prevCased then c.toLower else c.toUpper) :: pyTitleGo true cs
    else
      c :: pyTitleGo false cs

/-- Title-casing as the source applies it to each captured name. -/
def pyTitle (cs : Chars) : Chars := pyTitleGo false cs

/-- Embedding of get_fighter_names (src/ufc.py lines 417-449): the
captured names are stripped, title-cased and joined with the literal
lower-case infix vs, followed by the rematch digit when present. -/
def get_fighter_names (s : Chars) : String :=
  match fighterScan true s with
  | none => ""
  | some (cap1, cap2, num) =>
    ofChars (pyTitle (pyStrip cap1)) ++ " vs " ++
      ofChars (pyTitle (pyStrip cap2)) ++
      (match num with
       | some d => " " ++ ofChars [d]
       | none => "")

/-- Paths are lists of components, as the script only ever joins and
splits them componentwise. -/
abbrev PathM := List String

/-- Last component of a path: the name attribute of a Python Path. -/
def pathName (p : PathM) : String :=
  p.getLast?.getD ""

/-- Name of the parent: path.parent.name, empty for a bare name. -/
def parentName (p : PathM) : String :=
  p.dropLast.getLast?.getD ""

/-- Rendering of a path as text, for the messages the script prints. -/
def pathStr (p : PathM) : String :=
  String.intercalate "/" p

/-- Embedding of Path.suffix as CPython computes it: the part of the
name from its last dot, provided that dot is neither the first nor the
last character of the name. -/
def pathSuffix (p : PathM) : String :=
  let cs := (pathName p).data
  let dotIdxs := (List.range cs.length).filter (fun i => cs.get? i = some '.')
  match dotIdxs.getLast? with
  | some i => if 0 < i ∧ i + 1 < cs.length then ofChars (cs.drop i) else ""
  | none => ""

/-- Structured result of parsing one name, as the VideoInfo dataclass of
the source. -/
structure VideoInfo where
  event_number : String := ""
  fighter_names : String := ""
  edition : Edition := Edition.MAIN_EVENT
  resolution : String := ""
  path : PathM := []
deriving DecidableEq, Repr

/-- Process termination: the printed output and the process exit
status.  A value of this type in the error branch of an Except means
the Python process has terminated before the surrounding call could
return a value: orderly termination through exit_log carries its
message and sys.exit code, and an exception no handler catches carries
its traceback text and the interpreter's exit status 1. -/
structure ExitSig where
  message : String
  code : Nat
deriving DecidableEq, Repr

/-- Enum for bracket types, as in the source. -/
inductive Bracket where
  | SQUARE
  | CURLY
  | ROUND
deriving DecidableEq, Repr

/-- Opening and closing characters of a bracket style, the value
attribute of the Python enum. -/
def Bracket.value : Bracket → String × String
  | .SQUARE => ("[", "]")
  | .CURLY => ("\x7b", "\x7d")
  | .ROUND => ("(", ")")

/-- Tagged type for the four formattable VideoInfo fields, standing for
the attribute-name strings of the configuration. -/
inductive Part where
  | event_number
  | fighter_names
  | edition
  | resolution
deriving DecidableEq, Repr

/-- Configuration settings of the Config class that the extraction and
placement engine reads, with the class-variable defaults of the
source. -/
structure Cfg where
  destination_folder : PathM
  strict_matching : Bool := false
  replace_same_res : Bool := false
  dry_run : Bool := false
  subfolder : Option String := some "Other"
  format_order : List Part :=
    [Part.event_number, Part.fighter_names, Part.edition, Part.resolution]
  format_tokens : List (Part × Bracket) :=
    [(Part.edition, Bracket.CURLY), (Part.resolution, Bracket.SQUARE)]
  format_folder : List Part := [Part.event_number, Part.fighter_names]
  format_subfolder : List Part := [Part.event_number, Part.edition]
deriving Repr

/-- Bracket style configured for a part, the format_tokens.get call. -/
def tokenFor (cfg : Cfg) (p : Part) : Option Bracket :=
  (cfg.format_tokens.filterMap
    (fun pr => if pr.1 = p then some pr.2 else none)).head?

/-- One filesystem entry: a file or a directory at an absolute path. -/
structure FSEntry where
  comps : PathM
  isDir : Bool
deriving DecidableEq, Repr

/-- Filesystem state.  The entry list order is the (implementation
defined, consistent within one run) enumeration order that glob and
scandir expose.  The fail lists inject OS-level failures: an operation
on a path in the corresponding list raises, and the embedding maps the
raise to what the source makes of it — a returned value where the
source has a handler for that exception class, process termination
where it has none.  failMkdir is an OSError from mkdir (caught);
failMove is a shutil.Error from shutil.move (caught); failMoveOS is an
OSError from shutil.move's copy fallback (uncaught, source file still
in place); failChmod is an OSError from the os.chmod after a completed
move (uncaught, move already done); failUnlink is an OSError from
unlink (caught and swallowed). -/
structure FS where
  entries : List FSEntry
  failMkdir : List PathM := []
  failMove : List PathM := []
  failUnlink : List PathM := []
  failMoveOS : List PathM := []
  failChmod : List PathM := []
deriving DecidableEq, Repr

/-- Embedding of Path.exists: a file or directory entry at the path. -/
def pathExists (fs : FS) (p : PathM) : Bool :=
  fs.entries.any (fun e => e.comps = p)

/-- Directory existence. -/
def dirExists (fs : FS) (p : PathM) : Bool :=
  fs.entries.any (fun e => e.isDir ∧ e.comps = p)

/-- Entries directly inside a directory, in enumeration order. -/
def childrenOf (fs : FS) (dir : PathM) : List FSEntry :=
  fs.entries.filter
    (fun e => e.comps.length = dir.length + 1 ∧ e.comps.dropLast = dir)

/-- Case-insensitive substring test: the meaning of the glob pattern
star-needle-star with case_sensitive=False on one name, the needle (an
event number) containing no glob metacharacters. -/
def containsCIb (needle : Chars) : Chars → Bool
  | [] => isPrefixCIb needle []
  | c :: rest => isPrefixCIb needle (c :: rest) || containsCIb needle rest

/-- Embedding of directory.glob(star + event_number + star,
case_sensitive=False): the children whose name contains the event
number case-insensitively, in enumeration order. -/
def globChildren (fs : FS) (dir : PathM) (needle : String) : List FSEntry :=
  (childrenOf fs dir).filter
    (fun e => containsCIb needle.data (pathName e.comps).data)

/-- Event number and subject string the extraction settles on: the
event number from the name itself, or from the parent folder name; the
subject is replaced by the folder name exactly when the folder supplied
the event number (VideoInfo.__init__, src/ufc.py lines 92-99). -/
def extractCore (name0 folderName : Chars) : String × Chars :=
  let ev0 := get_event_number name0
  if ev0 ≠ "" then (ev0, name0)
  else
    let evF := get_event_number folderName
    if evF ≠ "" then (evF, folderName) else ("", name0)

/-- Pure part of non-strict extraction: all four fields from the chosen
subject string. -/
def extractNS (path : PathM) : VideoInfo :=
  let pr := extractCore (normalizeName (pathName path))
    (normalizeName (parentName path))
  { event_number := pr.1
    fighter_names := get_fighter_names pr.2
    edition := get_edition pr.2
    resolution := get_resolution pr.2
    path := path }

/-- Embedding of VideoInfo(path, strict=False): the existence check,
then pure extraction; no strict-mode exits and no fallback search. -/
def mkVideoInfoNS (fs : FS) (path : PathM) : Except ExitSig VideoInfo :=
  if pathExists fs path then .ok (extractNS path)
  else .error ⟨"File " ++ pathStr path ++ " does not exist", 1⟩

/-- Embedding of find_names (src/ufc.py lines 555-585): scan the
children of the directory whose name contains the event number, parse
each non-strict, recurse into a directory candidate that has no fighter
names, and return the first non-empty result, in enumeration order.
The Python recursion is bounded only by the directory tree depth; the
fuel argument is given that depth by the caller, so it never runs
out. -/
def findNamesF (fs : FS) : Nat → PathM → String → Except ExitSig String
  | 0, _, _ => .ok ""
  | fuel + 1, dir, ev =>
    (globChildren fs dir ev).foldl
      (fun acc e =>
        match acc with
        | .error err => .error err
        | .ok s =>
          if s ≠ "" then .ok s
          else
            match mkVideoInfoNS fs e.comps with
            | .error err => .error err
            | .ok info =>
              if e.isDir ∧ info.fighter_names = "" then
                findNamesF fs fuel e.comps ev
              else .ok info.fighter_names)
      (.ok "")

/-- Fuel that exceeds the depth of every path in the filesystem, so the
fuelled find_names recursion behaves as the unbounded Python one. -/
def fsFuel (fs : FS) : Nat :=
  fs.entries.foldl (fun m e => max m e.comps.length) 0 + 1

/-- Embedding of VideoInfo.__init__ (src/ufc.py lines 63-120) with its
strict parameter: existence check, event-number extraction with the
atomic parent-folder fallback, the strict-mode process exits (error
exit with code 1 under Config.strict_matching, silent exit with code 0
otherwise), the find_names fallback for missing fighter names, and the
remaining field extraction. -/
def mkVideoInfo (cfg : Cfg) (fs : FS) (path : PathM) (strict : Bool) :
    Except ExitSig VideoInfo :=
  if ¬ pathExists fs path then
    .error ⟨"File " ++ pathStr path ++ " does not exist", 1⟩
  else
    let name0 := normalizeName (pathName path)
    let folderName := normalizeName (parentName path)
    let pr := extractCore name0 folderName
    if pr.1 = "" ∧ strict then
      if cfg.strict_matching then
        .error ⟨"Unable to extract UFC event number from " ++ ofChars pr.2, 1⟩
      else
        .error ⟨"", 0⟩
    else
      let fn0 := get_fighter_names pr.2
      match
        (if fn0 = "" ∧ strict then
          findNamesF fs (fsFuel fs) cfg.destination_folder pr.1
        else .ok fn0)
      with
      | .error e => .error e
      | .ok fn =>
        .ok { event_number := pr.1
              fighter_names := fn
              edition := get_edition pr.2
              resolution := get_resolution pr.2
              path := path }

/-- Embedding of find_editions (src/ufc.py lines 497-522): files in the
directory whose name contains the event number, parsed non-strict,
kept when their event number equals the incoming one, keyed by edition.
The association list keeps all insertions in order; lookup takes the
last one, matching Python dict assignment where a later file with the
same edition overwrites an earlier one. -/
def findEditions (fs : FS) (dir : PathM) (ev : String) :
    Except ExitSig (List (Edition × VideoInfo)) :=
  (globChildren fs dir ev).foldl
    (fun acc e =>
      match acc with
      | .error err => .error err
      | .ok l =>
        if e.isDir then .ok l
        else
          match mkVideoInfoNS fs e.comps with
          | .error err => .error err
          | .ok info =>
            if info.event_number = ev then .ok (l ++ [(info.edition, info)])
            else .ok l)
    (.ok [])

/-- Python dict lookup over the insertion list: the last binding of the
key wins. -/
def dictGet (l : List (Edition × VideoInfo)) (ed : Edition) :
    Option VideoInfo :=
  l.foldl (fun acc pr => if pr.1 = ed then some pr.2 else acc) none

/-- Embedding of is_valid_folder_name (source lines 651-668, the
function whose definition the quoting accident swallows): non-empty, no
surrounding whitespace, none of the forbidden characters. -/
def is_valid_folder_name (name : String) : Bool :=
  if name.data = [] ∨ pyStrip name.data ≠ name.data then false
  else if name.data.any (fun c =>
      c = '\\' ∨ c = '/' ∨ c = ':' ∨ c = '*' ∨ c = '?' ∨ c = '"' ∨
      c = '<' ∨ c = '>' ∨ c = '|') then false
  else true

/-- Truthiness of the configured subfolder name: Python treats both
None and the empty string as no subfolder. -/
def subfolderActive (cfg : Cfg) : Bool :=
  match cfg.subfolder with
  | some s => s ≠ ""
  | none => false

/-- One step of the rendering loop of construct_path: skip falsy
values (an Edition value is always truthy), render the edition with or
without the edition- prefix, collect raw values for the folder name,
restrict subfolder file names to the subfolder parts, decorate with the
configured brackets, collect file-name parts. -/
def renderStep (cfg : Cfg) (info : VideoInfo) (in_subfolder : Bool)
    (acc : List String × List String) (part : Part) :
    List String × List String :=
  let vOpt : Option String :=
    match part with
    | Part.event_number =>
      if info.event_number = "" then none else some info.event_number
    | Part.fighter_names =>
      if info.fighter_names = "" then none else some info.fighter_names
    | Part.edition =>
      some (if in_subfolder then info.edition.value
            else "edition-" ++ info.edition.value)
    | Part.resolution =>
      if info.resolution = "" then none else some info.resolution
  match vOpt with
  | none => acc
  | some value =>
    let folderAcc :=
      if part ∈ cfg.format_folder then acc.2 ++ [value] else acc.2
    if in_subfolder ∧ part ∉ cfg.format_subfolder then (acc.1, folderAcc)
    else
      let value2 :=
        match tokenFor cfg part with
        | some br => br.value.1 ++ value ++ br.value.2
        | none => value
      (acc.1 ++ [value2], folderAcc)

/-- Embedding of construct_path (the algorithm of source lines
605-648): extraction (strict), rendering of folder and file name parts
in the configured order, folder-name validation with a fatal exit on
violation, and assembly of the destination path with the optional
subfolder for non-main editions. -/
def construct_path (cfg : Cfg) (fs : FS) (filePath : PathM) :
    Except ExitSig (PathM × VideoInfo) :=
  match mkVideoInfo cfg fs filePath true with
  | .error e => .error e
  | .ok info =>
    let in_subfolder := subfolderActive cfg ∧ info.edition ≠ Edition.MAIN_EVENT
    let pf := cfg.format_order.foldl (renderStep cfg info in_subfolder) ([], [])
    let folder_name := String.intercalate " " pf.2
    if ¬ is_valid_folder_name folder_name then
      .error ⟨"Invalid folder name: " ++ folder_name, 1⟩
    else
      let dest0 := cfg.destination_folder ++ [folder_name]
      let dest := if in_subfolder then dest0 ++ [cfg.subfolder.getD ""] else dest0
      let file_name := String.intercalate " " pf.1 ++ pathSuffix filePath
      .ok (dest ++ [file_name], info)

/-- Proper non-empty prefixes and the path itself, innermost last: the
directories mkdir(parents=True) creates as needed. -/
def prefixesOf (p : PathM) : List PathM :=
  (List.range p.length).map (fun i => p.take (i + 1))

/-- Directory creation with parents: every missing prefix becomes a
directory entry. -/
def mkdirs (fs : FS) (p : PathM) : FS :=
  let newDirs : List FSEntry :=
    ((prefixesOf p).filter (fun q => ¬ dirExists fs q)).map
      (fun q => { comps := q, isDir := true })
  { fs with entries := fs.entries ++ newDirs }

/-- State after a completed shutil.move: the source entry replaced by
the destination file entry, appended in enumeration order. -/
def applyMove (fs : FS) (src dst : PathM) : FS :=
  { fs with entries :=
      (fs.entries.filter (fun e => e.comps ≠ src)) ++
        [{ comps := dst, isDir := false }] }

/-- Embedding of move_file (src/ufc.py lines 827-872).  Dry-run returns
the success narrative unchanged.  A directory-creation failure (OSError
from mkdir, which the source catches) is returned as a message with
code 1 before anything is moved.  The try block around the move catches
only shutil.Error: such a move failure is returned as a message with
code 1 with the source still in place (the created directories
remain), while an OSError raised by shutil.move's copy fallback, or by
the os.chmod that runs after a completed move, matches no handler and
terminates the process — the error branch of the result, carrying the
traceback and the interpreter's exit status 1; after the copy-fallback
failure the source file is still in place, after the chmod failure the
move has already happened.  The permission effects themselves (os.stat,
get_minimum_permissions, the mode bits, check_permissions with its own
caught OSError) are out of scope and do not change this state; the OS
error text interpolated into messages is abstracted to the exception
class name. -/
def move_file (cfg : Cfg) (fs : FS) (src dst : PathM) :
    Except ExitSig (String × Nat) × FS :=
  if cfg.dry_run then
    (.ok ("Moved " ++ pathStr src ++ " to " ++ pathStr dst, 0), fs)
  else
    let parent := dst.dropLast
    if ¬ dirExists fs parent ∧ parent ∈ fs.failMkdir then
      (.ok ("Failed to create directory " ++ pathStr parent ++
        ": OSError", 1), fs)
    else
      let fs1 := if ¬ dirExists fs parent then mkdirs fs parent else fs
      if src ∈ fs1.failMove then
        (.ok ("Failed to move " ++ pathStr src ++ " to " ++ pathStr dst ++
          ": shutil.Error", 1), fs1)
      else if src ∈ fs1.failMoveOS then
        (.error ⟨"Traceback: OSError raised by shutil.move", 1⟩, fs1)
      else
        let fs2 := applyMove fs1 src dst
        if dst ∈ fs2.failChmod then
          (.error ⟨"Traceback: OSError raised by os.chmod", 1⟩, fs2)
        else
          (.ok ("Moved " ++ pathStr src ++ " to " ++ pathStr dst, 0), fs2)

/-- Resolution rank of the incoming file: int(info.resolution[:-1] or
99999), so a missing resolution ranks 99999, above every known one. -/
def resRankNew (r : String) : Nat :=
  let t := r.data.dropLast
  if t = [] then 99999
  else t.foldl (fun n c => n * 10 + (c.toNat - 48)) 0

/-- Resolution rank of the existing file: int(x_info.resolution[:-1] or
0), so a missing resolution ranks 0, below every known one. -/
def resRankOld (r : String) : Nat :=
  let t := r.data.dropLast
  if t = [] then 0
  else t.foldl (fun n c => n * 10 + (c.toNat - 48)) 0

/-- Embedding of unlink as rename_and_move wraps it: an OS failure is
caught, printed and swallowed, leaving the state unchanged; the
function continues either way. -/
def unlinkFS (fs : FS) (p : PathM) : FS :=
  if p ∈ fs.failUnlink then fs
  else { fs with entries := fs.entries.filter (fun e => e.comps ≠ p) }

/-- Embedding of rename_and_move (src/ufc.py lines 875-953): compute
the target path, fail when it already exists, move straight away when
the target folder does not exist, otherwise look for an existing file
of the same event and edition and apply the conflict policy; the
refresh_perms blocks (permission reporting only, default off) are out
of scope.  The filesystem state is returned alongside the outcome; the
error branch is a process termination raised below this function — an
exit_log exit during extraction or path construction, or an uncaught
OSError escaping move_file's try block — which rename_and_move, having
no handler, propagates. -/
def rename_and_move (cfg : Cfg) (fs : FS) (filePath : PathM) :
    Except ExitSig (String × Nat) × FS :=
  match construct_path cfg fs filePath with
  | .error e => (.error e, fs)
  | .ok (new_path, info) =>
    if pathExists fs new_path then
      (.ok ("File " ++ pathName new_path ++ " already exists in " ++
        pathStr new_path.dropLast, 1), fs)
    else if ¬ dirExists fs new_path.dropLast then
      move_file cfg fs info.path new_path
    else
      match findEditions fs new_path.dropLast info.event_number with
      | .error e => (.error e, fs)
      | .ok existing =>
        match dictGet existing info.edition with
        | none =>
          move_file cfg fs info.path new_path
        | some x_info =>
          if x_info.path = filePath then
            move_file cfg fs info.path new_path
          else
            let new_res := resRankNew info.resolution
            let old_res := resRankOld x_info.resolution
            if new_res = old_res ∨ new_res > old_res then
              if new_res = old_res ∧ ¬ cfg.replace_same_res then
                (.ok ("File " ++ pathName x_info.path ++
                  " already exists in " ++ pathStr new_path.dropLast ++
                  " with the same resolution.", 1), fs)
              else
                let fs1 := if cfg.dry_run then fs else unlinkFS fs x_info.path
                move_file cfg fs1 info.path new_path
            else
              (.ok ("File " ++ pathName x_info.path ++
                " already exists in " ++ pathStr new_path.dropLast ++
                " with a higher resolution.", 1), fs)

/-- Text that exit_log (src/ufc.py lines 334-349) prints before calling
sys.exit: the message prefixed with Error: for a non-zero code, the
bare message (empty for the silent exit) otherwise. -/
def exit_log_printed (e : ExitSig) : String :=
  if e.code ≠ 0 then "Error: " ++ e.message else e.message

/-- Lines 604 through 660 of src/ufc.py, verbatim (in this list, index 0
is line 604). -/
def swallowedRegion : List String :=
  [ "    \"\"\""
  , "    info = VideoInfo(file_path)"
  , "    in_subfolder = bool(Config.subfolder and info.edition != Edition.MAIN_EVENT)"
  , ""
  , "    parts = []"
  , "    folder_parts = []"
  , ""
  , "    for part in Config.format_order:"
  , "        if not (value := getattr(info, part)):"
  , "            continue"
  , ""
  , "        if isinstance(value, Edition):"
  , "            value = value.value if in_subfolder else f\"edition-\x7bvalue.value\x7d\""
  , ""
  , "        # Add to Main folder name"
  , "        if part in Config.format_folder:"
  , "            folder_parts.append(value)"
  , ""
  , "        # Limit subfolder filename parts"
  , "        if in_subfolder and part not in Config.format_subfolder:"
  , "            continue"
  , ""
  , "        # Add brackets if specified"
  , "        if token := Config.format_tokens.get(part):"
  , "            left, right = token.value"
  , "            value = f\"\x7bleft\x7d\x7bvalue\x7d\x7bright\x7d\""
  , ""
  , "        # Add to filename"
  , "        parts.append(value)"
  , ""
  , "    # e.g. UFC Fight Night 248 Yan vs Figueiredo"
  , "    folder_name = \" \".join(folder_parts)"
  , ""
  , "    if not is_valid_folder_name(folder_name):"
  , "        exit_log(f\"Invalid folder name: \x7bfolder_name\x7d\", exit_code=1)"
  , ""
  , "    dest = Config.destination_folder / folder_name"
  , "    if in_subfolder and Config.subfolder:"
  , "        dest /= Config.subfolder"
  , ""
  , "    # e.g. UFC Fight Night 248 Yan vs Figueiredo \x7bedition-Main Event\x7d [1080p].mkv"
  , "    # or for subfolders: UFC Fight Night 248 Prelims"
  , "    file_name = \" \".join(parts) + file_path.suffix"
  , ""
  , "    return (dest / file_name), info"
  , ""
  , ""
  , "def is_valid_folder_name(name: str) -> bool:"
  , "    \"\"\""
  , "    Light validation for folder names:"
  , "    - No invalid characters: \\\\ / : * ? \" < > |"
  , "    - Cannot be empty or just spaces"
  , "    - Cannot start or end with spaces"
  , ""
  , "    :param name: Folder name to validate."
  , "    :return: True if valid, False otherwise."
  , "    \"\"\""
  ]

/-- Line numbers, in file order and with multiplicity, of every
occurrence of a triple double quote in src/ufc.py (the file contains no
triple single quote, and none of these occurrences lies inside a
single- or double-quoted string or a comment, so consecutive pairs
delimit the string literals of the module). -/
def tripleQuoteOccLines : List Nat :=
  [1, 18, 38, 38, 46, 46, 55, 55, 64, 82, 125, 146, 173, 173, 180, 189,
   275, 284, 335, 346, 353, 366, 386, 395, 418, 427, 453, 462, 479, 489,
   498, 513, 526, 538, 558, 573, 589, 599, 604, 652, 660, 672, 672, 677,
   677, 684, 696, 715, 734, 785, 800, 828, 837, 876, 886, 961, 981, 1026,
   1034, 1116, 1129]

/-- Consecutive pairing: occurrence 2k opens a string literal and
occurrence 2k+1 closes it. -/
def pairUp : List Nat → List (Nat × Nat)
  | a :: b :: rest => (a, b) :: pairUp rest
  | _ => []

/-- Extents, as (opening line, closing line), of the triple-quoted
string literals of src/ufc.py. -/
def stringSpans : List (Nat × Nat) :=
  pairUp tripleQuoteOccLines

/-- Case-sensitive prefix test on character lists. -/
def hasPrefixSub : Chars → Chars → Bool
  | [], _ => true
  | _ :: _, [] => false
  | a :: as, b :: bs => a = b && hasPrefixSub as bs

/-- Case-sensitive substring test on character lists. -/
def containsSub (needle : Chars) : Chars → Bool
  | [] => hasPrefixSub needle []
  | c :: rest => hasPrefixSub needle (c :: rest) || containsSub needle rest

/-- Test for a triple double quote inside a line. -/
def containsTQ (s : String) : Bool :=
  containsSub ['"', '"', '"'] s.data

/-- Keywords and soft keywords of Python 3.12.  A statement may begin
with one of these, but never with two adjacent plain-identifier tokens
neither of which is on this list. -/
def pyKeywords : List String :=
  ["False", "None", "True", "and", "as", "assert", "async", "await",
   "break", "class", "continue", "def", "del", "elif", "else", "except",
   "finally", "for", "from", "global", "if", "import", "in", "is",
   "lambda", "nonlocal", "not", "or", "pass", "raise", "return", "try",
   "while", "with", "yield", "match", "case", "type", "_"]

/-- Maximal identifier token at the head of the input. -/
def identRun (cs : Chars) : Chars × Chars :=
  takeRun (fun c => isAlphaC c || isDigitC c || c = '_') cs

/-- Modelled from the Python 3.12 grammar: a logical line whose first
two tokens are plain identifiers, neither of them a keyword or soft
keyword, cannot begin any Python statement, so a module containing such
a line outside every string and comment is not syntactically valid. -/
def bareIdentJuxtaposition (line : String) : Bool :=
  let cs := line.data.dropWhile (fun c => c = ' ')
  let r1 := identRun cs
  if r1.1 = [] then false
  else if pyKeywords.contains (ofChars r1.1) then false
  else
    match r1.2 with
    | ' ' :: rest =>
      let r2 := identRun (rest.dropWhile (fun c => c = ' '))
      r2.1 ≠ [] && !pyKeywords.contains (ofChars r2.1)
    | _ => false

/-!
Concrete scenarios used by several claims.  The configuration is the
class-variable default configuration of the source (destination root
abbreviated to one component), and each filesystem is the smallest one
exhibiting the behaviour at issue.
-/

/-- Default configuration with destination root dest. -/
def cfgMain : Cfg := { destination_folder := ["dest"] }

/-- Canonical folder of UFC 300 Pereira vs Hill under the default
template. -/
def folder300 : PathM := ["dest", "UFC 300 Pereira vs Hill"]

/-- Existing main-event file of the event at 720p, under its canonical
name. -/
def exist720 : PathM :=
  folder300 ++ ["UFC 300 Pereira vs Hill \x7bedition-Main Event\x7d [720p].mkv"]

/-- Canonical target name the default template produces for a 1080p
main-event file of the event. -/
def canon1080 : PathM :=
  folder300 ++ ["UFC 300 Pereira vs Hill \x7bedition-Main Event\x7d [1080p].mkv"]

/-- Freshly downloaded 1080p file of the same event and edition. -/
def src1080 : PathM := ["downloads", "UFC.300.Pereira.vs.Hill.1080p.mkv"]

/-- Freshly downloaded 480p file of the same event and edition. -/
def src480 : PathM := ["downloads", "UFC.300.Pereira.vs.Hill.480p.mkv"]

/-- Destination tree holding the 720p file, plus the download folder
with the 1080p and 480p candidates. -/
def fsConflict : FS :=
  { entries :=
      [ { comps := ["dest"], isDir := true }
      , { comps := folder300, isDir := true }
      , { comps := exist720, isDir := false }
      , { comps := ["downloads"], isDir := true }
      , { comps := src1080, isDir := false }
      , { comps := src480, isDir := false } ] }

/-- Same tree with the OS refusing to delete the 720p file. -/
def fsUnlinkFail : FS := { fsConflict with failUnlink := [exist720] }

/-- Tree whose only media file already sits at its canonical target
path. -/
def fsCanon : FS :=
  { entries :=
      [ { comps := ["dest"], isDir := true }
      , { comps := folder300, isDir := true }
      , { comps := exist720, isDir := false } ] }

/-- File of the event sitting in its canonical folder under a
non-canonical name. -/
def srcPlain720 : PathM := folder300 ++ ["UFC 300 Pereira vs Hill 720p.mkv"]

/-- Tree for the rename-in-place case. -/
def fsRename : FS :=
  { entries :=
      [ { comps := ["dest"], isDir := true }
      , { comps := folder300, isDir := true }
      , { comps := srcPlain720, isDir := false } ] }

/-- Existing file of the event and edition with no resolution token,
with fighter names absent so its name differs from the incoming
target. -/
def existNoRes : PathM := folder300 ++ ["UFC 300 \x7bedition-Main Event\x7d.mkv"]

/-- Incoming file of the event with no resolution token (ppv stops the
name capture before the extension). -/
def srcNoRes : PathM := ["downloads", "UFC.300.Pereira.vs.Hill.PPV.mkv"]

/-- Target name for the incoming no-resolution file. -/
def canonNoRes : PathM :=
  folder300 ++ ["UFC 300 Pereira vs Hill \x7bedition-Main Event\x7d.mkv"]

/-- Tree for the conflict between two files without resolution. -/
def fsBothNoRes : FS :=
  { entries :=
      [ { comps := ["dest"], isDir := true }
      , { comps := folder300, isDir := true }
      , { comps := existNoRes, isDir := false }
      , { comps := ["downloads"], isDir := true }
      , { comps := srcNoRes, isDir := false } ] }

/-- Unmatched input: a file with no recognizable event number in its
name or its parent folder name. -/
def srcRandom : PathM := ["downloads", "RandomMovie.mkv"]

/-- Tree holding only the unmatched file. -/
def fsRandom : FS :=
  { entries :=
      [ { comps := ["dest"], isDir := true }
      , { comps := ["downloads"], isDir := true }
      , { comps := srcRandom, isDir := false } ] }

/-- Destination tree where fighter names are only recorded three
directory levels below the root: the folder of UFC 229 and its
subfolder carry no names, the innermost entry does. -/
def fsDeep : FS :=
  { entries :=
      [ { comps := ["dest"], isDir := true }
      , { comps := ["dest", "UFC 229"], isDir := true }
      , { comps := ["dest", "UFC 229", "UFC 229 stuff"], isDir := true }
      , { comps := ["dest", "UFC 229", "UFC 229 stuff",
                    "UFC 229 Khabib vs McGregor"], isDir := true } ] }

/-- Shape of a resolution token: three or four digits followed by p or
i in either case. -/
def resShapeB (t : Chars) : Bool :=
  ((t.length = 4 || t.length = 5) && t.dropLast.all isDigitC) &&
  (match t.getLast? with
   | some c => isPIC c
   | none => false)

/-- Boolean check that a list of line numbers is in file order. -/
def sortedLinesB : List Nat → Bool
  | [] => true
  | [_] => true
  | a :: b :: rest => a ≤ b && sortedLinesB (b :: rest)

/-- Modelled from the spec words of claim C10, which is what it is
compared against: a one-level fallback search.  Candidates under the
root whose name contains the event number are parsed non-strict; a
directory candidate without fighter names is entered exactly once, its
own candidates parsed non-strict with no further recursion; the first
non-empty result in enumeration order is accepted. -/
def findNamesOneLevel (fs : FS) (dir : PathM) (ev : String) :
    Except ExitSig String :=
  (globChildren fs dir ev).foldl
    (fun acc e =>
      match acc with
      | .error err => .error err
      | .ok s =>
        if s ≠ "" then .ok s
        else
          match mkVideoInfoNS fs e.comps with
          | .error err => .error err
          | .ok info =>
            if e.isDir ∧ info.fighter_names = "" then
              (globChildren fs e.comps ev).foldl
                (fun acc2 e2 =>
                  match acc2 with
                  | .error err => .error err
                  | .ok s2 =>
                    if s2 ≠ "" then .ok s2
                    else
                      match mkVideoInfoNS fs e2.comps with
                      | .error err => .error err
                      | .ok info2 => .ok info2.fighter_names)
                (.ok "")
            else .ok info.fighter_names)
    (.ok "")

/-- Destination tree exhibiting enumeration order and the glob filter:
a folder with extractable names but no event number in its own name, a
matching file without names, then two matching directories with
names. -/
def fsOrder : FS :=
  { entries :=
      [ { comps := ["dest"], isDir := true }
      , { comps := ["dest", "Boxing Fury vs Wilder"], isDir := true }
      , { comps := ["dest", "UFC 229 no names here"], isDir := false }
      , { comps := ["dest", "ufc 229 smith vs jones"], isDir := true }
      , { comps := ["dest", "UFC 229 Khabib vs McGregor"], isDir := true }
      , { comps := ["downloads"], isDir := true }
      , { comps := ["downloads", "UFC.229.mkv"], isDir := false } ] }

/-- Obfuscated file inside a folder named after its event. -/
def pVideo : PathM := ["UFC 300 Pereira vs Hill", "Video.mkv"]

/-- Tree for the parent-folder fallback example. -/
def fsVideo : FS :=
  { entries :=
      [ { comps := ["UFC 300 Pereira vs Hill"], isDir := true }
      , { comps := pVideo, isDir := false } ] }

/-- Descriptor the extraction computes for the incoming 1080p file. -/
def infoSrc1080 : VideoInfo :=
  { event_number := "UFC 300", fighter_names := "Pereira vs Hill",
    edition := Edition.MAIN_EVENT, resolution := "1080p", path := src1080 }

/-- Descriptor the extraction computes for the canonically named 720p
file. -/
def infoCanon : VideoInfo :=
  { event_number := "UFC 300", fighter_names := "Pereira vs Hill",
    edition := Edition.MAIN_EVENT, resolution := "720p", path := exist720 }

/-- Target under a parent that the OS refuses to create. -/
def dstNew : PathM := ["dest", "UFC 999 Test vs Case", "file.mkv"]

/-- Tree where creating the target folder fails. -/
def fsMkdirFail : FS :=
  { fsRandom with failMkdir := [["dest", "UFC 999 Test vs Case"]] }

/-- Tree where moving the source file fails with the caught
shutil.Error. -/
def fsMoveFail : FS := { fsRandom with failMove := [srcRandom] }

/-- Tree where moving the source file raises the uncaught OSError in
the copy fallback. -/
def fsMoveOSFail : FS := { fsRandom with failMoveOS := [srcRandom] }

/-- Tree where the os.chmod after a completed move raises the uncaught
OSError. -/
def fsChmodFail : FS := { fsRandom with failChmod := [["dest", "moved.mkv"]] }

/-- Download tree whose placement move will raise the uncaught OSError
inside the placement pipeline. -/
def fsCrash : FS :=
  { entries :=
      [ { comps := ["dest"], isDir := true }
      , { comps := ["downloads"], isDir := true }
      , { comps := src1080, isDir := false } ]
    failMoveOS := [src1080] }

set_option maxRecDepth 10000

/-!
Helper lemmas shared by the claim theorems.
-/

/-- Appending to a non-empty string yields a non-empty string. -/
theorem stringAppendNe (s t : String) (hs : s.data ≠ []) : s ++ t ≠ "" := by
  intro h
  apply hs
  have h2 : (s ++ t).data = ("" : String).data := by rw [h]
  rw [String.data_append] at h2
  simp at h2
  exact h2.1

/-- The descriptor a successful strict extraction returns carries the
extracted file's path. -/
theorem mkVideoInfo_path (cfg : Cfg) (fs : FS) (p : PathM) (s : Bool)
    (info : VideoInfo) (h : mkVideoInfo cfg fs p s = .ok info) :
    info.path = p := by
  simp only [mkVideoInfo] at h
  split at h
  · simp at h
  · split at h
    · split at h <;> simp at h
    · split at h
      · simp at h
      · simp at h
        subst h
        rfl

/-- The descriptor a successful path construction returns carries the
source file's path. -/
theorem construct_path_path (cfg : Cfg) (fs : FS) (p : PathM) (np : PathM)
    (info : VideoInfo) (h : construct_path cfg fs p = .ok (np, info)) :
    info.path = p := by
  simp only [construct_path] at h
  cases hm : mkVideoInfo cfg fs p true with
  | error e => rw [hm] at h; simp at h
  | ok i =>
    rw [hm] at h
    have key : ∀ (c : Prop) (inst : Decidable c) (m : ExitSig) (pth : PathM),
        (@ite _ c inst (Except.error m) (Except.ok (pth, i))) =
          Except.ok (np, info) → info = i := by
      intro c inst m pth hh
      split at hh
      · simp at hh
      · simp at hh
        exact hh.2.symm
    rw [key _ _ _ _ h]
    exact mkVideoInfo_path cfg fs p true i hm

/-- Directory creation never removes an existing entry. -/
theorem pathExists_mkdirs (fs : FS) (d : PathM) (q : PathM)
    (h : pathExists fs q = true) : pathExists (mkdirs fs d) q = true := by
  simp only [pathExists, mkdirs, List.any_append, Bool.or_eq_true]
  exact Or.inl h

/-- Entries other than the moved source survive applyMove, and the
destination is present afterwards. -/
theorem pathExists_applyMove_dst (fs : FS) (src dst : PathM) :
    pathExists (applyMove fs src dst) dst = true := by
  simp [pathExists, applyMove, List.any_append]

/-- After move_file the source entry is still there or the destination
entry is — through the caught failures, the uncaught OSError
terminations and the success path alike: no outcome deletes the source
without producing the target. -/
theorem move_file_preserves (cfg : Cfg) (fs : FS) (src dst : PathM)
    (h : pathExists fs src = true) :
    pathExists (move_file cfg fs src dst).2 src = true ∨
    pathExists (move_file cfg fs src dst).2 dst = true := by
  by_cases h1 : cfg.dry_run = true
  · simp only [move_file, if_pos h1]
    exact Or.inl h
  · by_cases h2 : (¬ dirExists fs (List.dropLast dst) = true) ∧
      List.dropLast dst ∈ fs.failMkdir
    · simp only [move_file, if_neg h1, if_pos h2]
      exact Or.inl h
    · by_cases h3 : ¬ dirExists fs (List.dropLast dst) = true
      · simp only [move_file, if_neg h1, if_neg h2, if_pos h3]
        by_cases h4 : src ∈ (mkdirs fs (List.dropLast dst)).failMove
        · rw [if_pos h4]
          exact Or.inl (pathExists_mkdirs fs (List.dropLast dst) src h)
        · rw [if_neg h4]
          by_cases h5 : src ∈ (mkdirs fs (List.dropLast dst)).failMoveOS
          · rw [if_pos h5]
            exact Or.inl (pathExists_mkdirs fs (List.dropLast dst) src h)
          · rw [if_neg h5]
            by_cases h6 : dst ∈
                (applyMove (mkdirs fs (List.dropLast dst)) src dst).failChmod
            · rw [if_pos h6]
              exact Or.inr (pathExists_applyMove_dst _ src dst)
            · rw [if_neg h6]
              exact Or.inr (pathExists_applyMove_dst _ src dst)
      · simp only [move_file, if_neg h1, if_neg h2, if_neg h3]
        by_cases h4 : src ∈ fs.failMove
        · rw [if_pos h4]
          exact Or.inl h
        · rw [if_neg h4]
          by_cases h5 : src ∈ fs.failMoveOS
          · rw [if_pos h5]
            exact Or.inl h
          · rw [if_neg h5]
            by_cases h6 : dst ∈ (applyMove fs src dst).failChmod
            · rw [if_pos h6]
              exact Or.inr (pathExists_applyMove_dst fs src dst)
            · rw [if_neg h6]
              exact Or.inr (pathExists_applyMove_dst fs src dst)

/-- Unlinking one path leaves every other path in place. -/
theorem pathExists_unlink (fs : FS) (p q : PathM) (hne : q ≠ p)
    (h : pathExists fs q = true) : pathExists (unlinkFS fs p) q = true := by
  simp only [unlinkFS]
  split
  · exact h
  · simp only [pathExists, List.any_eq_true, decide_eq_true_eq] at h ⊢
    obtain ⟨e, he, hq⟩ := h
    refine ⟨e, List.mem_filter.mpr ⟨he, ?_⟩, hq⟩
    simp [hq, hne]

/-- A strict extraction of a name without an event number, also absent
from the parent folder name, terminates the process: error exit with
the extraction message under strict matching, silent exit with code
zero otherwise. -/
theorem extraction_exit (cfg : Cfg) (fs : FS) (p : PathM)
    (hex : pathExists fs p = true)
    (h1 : get_event_number (normalizeName (pathName p)) = "")
    (h2 : get_event_number (normalizeName (parentName p)) = "") :
    mkVideoInfo cfg fs p true =
      .error ⟨if cfg.strict_matching then
          "Unable to extract UFC event number from " ++
            ofChars (normalizeName (pathName p))
        else "",
        if cfg.strict_matching then 1 else 0⟩ := by
  simp only [mkVideoInfo, extractCore, hex, h1, h2]
  cases hsm : cfg.strict_matching <;> simp

/-- The extraction exit propagates through the placement pipeline
before any filesystem operation. -/
theorem rename_and_move_extraction_exit (cfg : Cfg) (fs : FS) (p : PathM)
    (hex : pathExists fs p = true)
    (h1 : get_event_number (normalizeName (pathName p)) = "")
    (h2 : get_event_number (normalizeName (parentName p)) = "") :
    rename_and_move cfg fs p =
      (.error ⟨if cfg.strict_matching then
          "Unable to extract UFC event number from " ++
            ofChars (normalizeName (pathName p))
        else "",
        if cfg.strict_matching then 1 else 0⟩, fs) := by
  simp only [rename_and_move, construct_path,
    extraction_exit cfg fs p hex h1 h2]

/-- When path construction exits, placement exits identically and the
filesystem is untouched: nothing is deleted or moved before a valid
target location has been computed. -/
theorem rename_and_move_error_of_construct (cfg : Cfg) (fs : FS) (p : PathM)
    (e : ExitSig) (h : construct_path cfg fs p = .error e) :
    rename_and_move cfg fs p = (.error e, fs) := by
  simp only [rename_and_move, h]

/-- Placement of a path that no longer exists exits with the missing
file message and touches nothing. -/
theorem rename_and_move_missing_source (cfg : Cfg) (fs : FS) (p : PathM)
    (h : pathExists fs p = false) :
    rename_and_move cfg fs p =
      (.error ⟨"File " ++ pathStr p ++ " does not exist", 1⟩, fs) := by
  simp only [rename_and_move, construct_path, mkVideoInfo, h]
  simp

/-- When the computed target already exists, placement reports the
duplicate-target failure with exit signal one and touches nothing, the
source being the file at the target or not. -/
theorem rename_and_move_target_exists (cfg : Cfg) (fs : FS) (p np : PathM)
    (info : VideoInfo) (hcp : construct_path cfg fs p = .ok (np, info))
    (htgt : pathExists fs np = true) :
    rename_and_move cfg fs p =
      (.ok ("File " ++ pathName np ++ " already exists in " ++
        pathStr np.dropLast, 1), fs) := by
  simp only [rename_and_move, hcp]
  rw [if_pos htgt]

/-- A directory-creation failure (OSError, caught) is returned as a
message with outcome one, the filesystem unchanged. -/
theorem move_file_mkdir_fail (cfg : Cfg) (fs : FS) (src dst : PathM)
    (h1 : cfg.dry_run = false)
    (h2 : dirExists fs (List.dropLast dst) = false)
    (h3 : List.dropLast dst ∈ fs.failMkdir) :
    move_file cfg fs src dst =
      (.ok ("Failed to create directory " ++ pathStr (List.dropLast dst) ++
        ": OSError", 1), fs) := by
  simp only [move_file, h1, h2]
  simp [h3]

/-- A shutil.Error move failure under an existing target folder is
caught and returned as a message with outcome one, the filesystem
unchanged. -/
theorem move_file_move_fail (cfg : Cfg) (fs : FS) (src dst : PathM)
    (h1 : cfg.dry_run = false)
    (h2 : dirExists fs (List.dropLast dst) = true)
    (h3 : src ∈ fs.failMove) :
    move_file cfg fs src dst =
      (.ok ("Failed to move " ++ pathStr src ++ " to " ++ pathStr dst ++
        ": shutil.Error", 1), fs) := by
  simp only [move_file, h1, h2]
  simp [h3]

/-- An OSError from shutil.move's copy fallback matches no handler:
move_file ends in process termination with the traceback, no (message,
code) value reaching the caller, the source file still in place. -/
theorem move_file_move_os_crash (cfg : Cfg) (fs : FS) (src dst : PathM)
    (h1 : cfg.dry_run = false)
    (h2 : dirExists fs (List.dropLast dst) = true)
    (h3 : src ∉ fs.failMove)
    (h4 : src ∈ fs.failMoveOS) :
    move_file cfg fs src dst =
      (.error ⟨"Traceback: OSError raised by shutil.move", 1⟩, fs) := by
  simp only [move_file, h1, h2]
  simp [h3, h4]

/-- An OSError from the os.chmod that follows a completed move matches
no handler: move_file ends in process termination with the traceback,
with the move already performed. -/
theorem move_file_chmod_crash (cfg : Cfg) (fs : FS) (src dst : PathM)
    (h1 : cfg.dry_run = false)
    (h2 : dirExists fs (List.dropLast dst) = true)
    (h3 : src ∉ fs.failMove)
    (h4 : src ∉ fs.failMoveOS)
    (h5 : dst ∈ fs.failChmod) :
    move_file cfg fs src dst =
      (.error ⟨"Traceback: OSError raised by os.chmod", 1⟩,
        applyMove fs src dst) := by
  simp only [move_file, h1, h2]
  simp [applyMove, h3, h4, h5]

/-- A delete failure is swallowed: the state is unchanged and nothing
about the failure reaches the returned outcome. -/
theorem unlink_fail_swallowed (fs : FS) (p : PathM) (h : p ∈ fs.failUnlink) :
    unlinkFS fs p = fs := by
  simp only [unlinkFS, if_pos h]

/-- Through every branch of placement, a source file that existed is
still present afterwards or the computed target is: no outcome leaves
the source deleted without the target existing. -/
theorem rename_and_move_preserves (cfg : Cfg) (fs : FS) (p np : PathM)
    (info : VideoInfo) (hcp : construct_path cfg fs p = .ok (np, info))
    (hex : pathExists fs p = true) :
    pathExists (rename_and_move cfg fs p).2 p = true ∨
    pathExists (rename_and_move cfg fs p).2 np = true := by
  have hpath : info.path = p := construct_path_path cfg fs p np info hcp
  simp only [rename_and_move, hcp]
  by_cases h1 : pathExists fs np = true
  · rw [if_pos h1]
    exact Or.inl hex
  · rw [if_neg h1]
    by_cases h2 : ¬ dirExists fs (List.dropLast np) = true
    · rw [if_pos h2]
      rw [hpath]
      exact move_file_preserves cfg fs p np hex
    · rw [if_neg h2]
      cases hfe : findEditions fs (List.dropLast np) info.event_number with
      | error e =>
        simp only [hfe]
        exact Or.inl hex
      | ok existing =>
        simp only [hfe]
        cases hdg : dictGet existing info.edition with
        | none =>
          simp only [hdg]
          rw [hpath]
          exact move_file_preserves cfg fs p np hex
        | some x =>
          simp only [hdg]
          by_cases h3 : x.path = p
          · rw [if_pos h3, hpath]
            exact move_file_preserves cfg fs p np hex
          · rw [if_neg h3]
            by_cases h4 : resRankNew info.resolution = resRankOld x.resolution ∨
                resRankNew info.resolution > resRankOld x.resolution
            · rw [if_pos h4]
              by_cases h5 : resRankNew info.resolution = resRankOld x.resolution ∧
                  ¬ cfg.replace_same_res = true
              · rw [if_pos h5]
                exact Or.inl hex
              · rw [if_neg h5]
                by_cases h6 : cfg.dry_run = true
                · rw [if_pos h6, hpath]
                  exact move_file_preserves cfg fs p np hex
                · rw [if_neg h6, hpath]
                  refine move_file_preserves cfg (unlinkFS fs x.path) p np ?_
                  refine pathExists_unlink fs x.path p ?_ hex
                  intro hq
                  exact h3 hq.symm
            · rw [if_neg h4]
              exact Or.inl hex

/-- The shape of every token the resolution matcher can return. -/
theorem resTokenAt_shape (cs t : Chars) (h : resTokenAt cs = some t) :
    resShapeB t = true := by
  unfold resTokenAt at h
  repeat' split at h
  all_goals try exact Option.noConfusion h
  all_goals injection h with h
  all_goals subst h
  all_goals simp_all [resShapeB]

/-- The shape of every token the resolution scan can return. -/
theorem resScan_shape (cs : Chars) : ∀ t, resScan cs = some t →
    resShapeB t = true := by
  induction cs with
  | nil => intro t h; simp [resScan] at h
  | cons c rest ih =>
    intro t h
    unfold resScan at h
    cases hr : resTokenAt (c :: rest) with
    | some t2 =>
      rw [hr] at h
      simp at h
      subst h
      exact resTokenAt_shape _ _ hr
    | none =>
      rw [hr] at h
      exact ih t h

/-- Every non-empty extracted resolution has the token shape. -/
theorem get_resolution_shape (s : Chars) :
    get_resolution s = "" ∨ resShapeB (get_resolution s).data = true := by
  unfold get_resolution
  cases hr : resScan (subRes s) with
  | none => left; rfl
  | some t =>
    right
    exact resScan_shape _ t hr

/-!
Claim theorems.
-/

/-- Claim C1: the path-formatting algorithm of construct_path is
unreachable as written.  The triple quote opened at source line 604 is
closed only by the one at line 652 (they are consecutive occurrences,
the opener being at an even occurrence index, which the pairing of the
ordered occurrence list encodes), so lines 605-651 — the rendering
loop, the folder-name validation, the return of the (path, VideoInfo)
tuple, and the def line of is_valid_folder_name — are the contents of
one string literal; the leftover docstring text at lines 653-659 lies
outside every string literal, and its first line consists of juxtaposed
plain identifiers, which cannot begin any Python statement, so the
module is not syntactically valid Python, construct_path never computes
a target path, and no file is ever placed. -/
theorem c1_construct_path_swallowed :
    (604, 652) ∈ stringSpans ∧
    sortedLinesB tripleQuoteOccLines = true ∧
    swallowedRegion.head? = some "    \"\"\"" ∧
    ((swallowedRegion.drop 1).take 47).all (fun s => !containsTQ s) = true ∧
    swallowedRegion.get? 7 = some "    for part in Config.format_order:" ∧
    swallowedRegion.get? 33 =
      some "    if not is_valid_folder_name(folder_name):" ∧
    swallowedRegion.get? 44 = some "    return (dest / file_name), info" ∧
    swallowedRegion.get? 47 =
      some "def is_valid_folder_name(name: str) -> bool:" ∧
    swallowedRegion.get? 49 =
      some "    Light validation for folder names:" ∧
    bareIdentJuxtaposition "    Light validation for folder names:" = true ∧
    (((List.range 7).map (fun i => 653 + i)).all (fun ln =>
      (tripleQuoteOccLines.all (fun o => o ≠ ln)) &&
      (stringSpans.all (fun pr => !(pr.1 < ln && ln < pr.2))))) = true := by
  refine ⟨?_, ?_, ?_, ?_, ?_, ?_, ?_, ?_, ?_, ?_, ?_⟩ <;> decide

/-- Claim C2, counterexample: the extraction engine does terminate the
process itself.  On a name with no event number, strict extraction
returns the process-exit signal (exit_log / sys.exit) — exit code 1
with the message under strict matching, silent exit code 0 otherwise —
instead of resolving the failure into a result value returned to the
caller, refuting the claim that the core never calls process-exit and
that a missing event number is signalled as a distinguishable
result. -/
theorem c2_counterexample :
    mkVideoInfo { cfgMain with strict_matching := true } fsRandom srcRandom
      true =
      .error ⟨"Unable to extract UFC event number from RandomMovie mkv", 1⟩ ∧
    mkVideoInfo cfgMain fsRandom srcRandom true = .error ⟨"", 0⟩ := by
  exact ⟨rfl, rfl⟩

/-- Claim C2 as amended: extraction failures are not returned as result
values — the engine terminates the process itself via exit_log (code 1
with a message under strict matching, silent code 0 otherwise) — and
filesystem failures are resolved locally only where the source has a
handler for them: an OSError from directory creation and a shutil.Error
from the move are caught and returned as (message, 1) values, but an
OSError raised by shutil.move's copy fallback or by the post-move
os.chmod matches no handler, so the process terminates with a traceback
and no outcome value reaches the caller — the placement pipeline, which
has no handler either, propagates that termination. -/
theorem c2_failure_channels :
    (∀ (cfg : Cfg) (fs : FS) (p : PathM),
      pathExists fs p = true →
      get_event_number (normalizeName (pathName p)) = "" →
      get_event_number (normalizeName (parentName p)) = "" →
      mkVideoInfo cfg fs p true =
        .error ⟨if cfg.strict_matching then
            "Unable to extract UFC event number from " ++
              ofChars (normalizeName (pathName p))
          else "",
          if cfg.strict_matching then 1 else 0⟩) ∧
    (∀ (cfg : Cfg) (fs : FS) (src dst : PathM),
      cfg.dry_run = false →
      dirExists fs (List.dropLast dst) = false →
      List.dropLast dst ∈ fs.failMkdir →
      move_file cfg fs src dst =
        (.ok ("Failed to create directory " ++ pathStr (List.dropLast dst) ++
          ": OSError", 1), fs)) ∧
    (∀ (cfg : Cfg) (fs : FS) (src dst : PathM),
      cfg.dry_run = false →
      dirExists fs (List.dropLast dst) = true →
      src ∈ fs.failMove →
      move_file cfg fs src dst =
        (.ok ("Failed to move " ++ pathStr src ++ " to " ++ pathStr dst ++
          ": shutil.Error", 1), fs)) ∧
    (∀ (cfg : Cfg) (fs : FS) (src dst : PathM),
      cfg.dry_run = false →
      dirExists fs (List.dropLast dst) = true →
      src ∉ fs.failMove →
      src ∈ fs.failMoveOS →
      move_file cfg fs src dst =
        (.error ⟨"Traceback: OSError raised by shutil.move", 1⟩, fs)) ∧
    (∀ (cfg : Cfg) (fs : FS) (src dst : PathM),
      cfg.dry_run = false →
      dirExists fs (List.dropLast dst) = true →
      src ∉ fs.failMove →
      src ∉ fs.failMoveOS →
      dst ∈ fs.failChmod →
      move_file cfg fs src dst =
        (.error ⟨"Traceback: OSError raised by os.chmod", 1⟩,
          applyMove fs src dst)) ∧
    (rename_and_move cfgMain fsCrash src1080).1 =
      .error ⟨"Traceback: OSError raised by shutil.move", 1⟩ := by
  refine ⟨?_, ?_, ?_, ?_, ?_, ?_⟩
  · intro cfg fs p hex h1 h2
    exact extraction_exit cfg fs p hex h1 h2
  · intro cfg fs src dst h1 h2 h3
    exact move_file_mkdir_fail cfg fs src dst h1 h2 h3
  · intro cfg fs src dst h1 h2 h3
    exact move_file_move_fail cfg fs src dst h1 h2 h3
  · intro cfg fs src dst h1 h2 h3 h4
    exact move_file_move_os_crash cfg fs src dst h1 h2 h3 h4
  · intro cfg fs src dst h1 h2 h3 h4 h5
    exact move_file_chmod_crash cfg fs src dst h1 h2 h3 h4 h5
  · rfl

/-- Witness for the amended claim C2 at concrete inputs. -/
theorem c2_failure_channels_witness :
    mkVideoInfo { cfgMain with strict_matching := true } fsRandom srcRandom
      true =
      .error ⟨"Unable to extract UFC event number from RandomMovie mkv", 1⟩ ∧
    move_file cfgMain fsMkdirFail srcRandom dstNew =
      (.ok ("Failed to create directory dest/UFC 999 Test vs Case: OSError",
        1), fsMkdirFail) ∧
    move_file cfgMain fsMoveFail srcRandom ["dest", "moved.mkv"] =
      (.ok ("Failed to move downloads/RandomMovie.mkv to dest/moved.mkv" ++
        ": shutil.Error", 1), fsMoveFail) ∧
    move_file cfgMain fsMoveOSFail srcRandom ["dest", "moved.mkv"] =
      (.error ⟨"Traceback: OSError raised by shutil.move", 1⟩,
        fsMoveOSFail) ∧
    move_file cfgMain fsChmodFail srcRandom ["dest", "moved.mkv"] =
      (.error ⟨"Traceback: OSError raised by os.chmod", 1⟩,
        applyMove fsChmodFail srcRandom ["dest", "moved.mkv"]) := by
  refine ⟨?_, ?_, ?_, ?_, ?_⟩
  · exact (c2_failure_channels.1 { cfgMain with strict_matching := true }
      fsRandom srcRandom rfl rfl rfl).trans (by rfl)
  · exact (c2_failure_channels.2.1 cfgMain fsMkdirFail srcRandom dstNew
      rfl rfl (by decide)).trans (by rfl)
  · exact (c2_failure_channels.2.2.1 cfgMain fsMoveFail srcRandom
      ["dest", "moved.mkv"] rfl rfl (by decide)).trans (by rfl)
  · exact c2_failure_channels.2.2.2.1 cfgMain fsMoveOSFail srcRandom
      ["dest", "moved.mkv"] rfl rfl (by decide) (by decide)
  · exact c2_failure_channels.2.2.2.2.1 cfgMain fsChmodFail srcRandom
      ["dest", "moved.mkv"] rfl rfl (by decide) (by decide) (by decide)

/-- Claim C3: when extraction finds no event number, on the file name
and on the parent folder name, under strict evaluation the result is a
process exit whose code is 1 with a non-empty logged message under the
strict-matching policy, and a silent exit with code 0 and nothing
printed under the non-strict policy; in both cases the filesystem is
returned unchanged. -/
theorem c3_strict_vs_nonstrict (cfg : Cfg) (fs : FS) (p : PathM)
    (hex : pathExists fs p = true)
    (h1 : get_event_number (normalizeName (pathName p)) = "")
    (h2 : get_event_number (normalizeName (parentName p)) = "") :
    ∃ e : ExitSig, rename_and_move cfg fs p = (.error e, fs) ∧
      (cfg.strict_matching = true → e.code = 1 ∧ exit_log_printed e ≠ "") ∧
      (cfg.strict_matching = false → e.code = 0 ∧ exit_log_printed e = "") := by
  refine ⟨_, rename_and_move_extraction_exit cfg fs p hex h1 h2, ?_, ?_⟩
  · intro hsm
    refine ⟨by simp [hsm], ?_⟩
    simp only [exit_log_printed, hsm]
    simp only [if_true]
    split
    · exact stringAppendNe "Error: " _ (by decide)
    · simp_all
  · intro hsm
    refine ⟨by simp [hsm], ?_⟩
    simp [exit_log_printed, hsm]

/-- Witness for claim C3: the unmatched file RandomMovie.mkv under both
policies. -/
theorem c3_strict_vs_nonstrict_witness :
    (∃ e : ExitSig,
      rename_and_move { cfgMain with strict_matching := true } fsRandom
        srcRandom = (.error e, fsRandom) ∧
      e.code = 1 ∧ exit_log_printed e ≠ "") ∧
    (∃ e : ExitSig,
      rename_and_move cfgMain fsRandom srcRandom = (.error e, fsRandom) ∧
      e.code = 0 ∧ exit_log_printed e = "") := by
  constructor
  · obtain ⟨e, he, hs, _⟩ := c3_strict_vs_nonstrict
      { cfgMain with strict_matching := true } fsRandom srcRandom rfl rfl rfl
    exact ⟨e, he, hs rfl⟩
  · obtain ⟨e, he, _, hn⟩ := c3_strict_vs_nonstrict cfgMain fsRandom srcRandom
      rfl rfl rfl
    exact ⟨e, he, hn rfl⟩

/-- Claim C4, counterexample: a delete failure is not reported and does
not stop the move.  With the OS refusing to delete the superseded 720p
file, placement of the 1080p file still returns the success outcome
(exit signal 0, a Moved message), the move is performed although the
old file was never confirmed deleted, and the superseded file is still
present next to the new one — refuting that a delete failure is
reported as an IOFailure and that the new file is moved only after the
old one is confirmed deleted. -/
theorem c4_counterexample :
    (rename_and_move cfgMain fsUnlinkFail src1080).1 = .ok
      ("Moved " ++ pathStr src1080 ++ " to " ++ pathStr canon1080, 0) ∧
    pathExists (rename_and_move cfgMain fsUnlinkFail src1080).2 exist720 =
      true ∧
    pathExists (rename_and_move cfgMain fsUnlinkFail src1080).2 canon1080 =
      true := by
  exact ⟨rfl, rfl, rfl⟩

/-- Claim C4 as amended: the superseded file is deleted only after a
valid target has been computed — when path construction exits, the
placement exits with the filesystem untouched; a directory-creation
failure (caught OSError) and a shutil.Error move failure are reported
as failure outcomes with the filesystem respectively unchanged, but an
OSError raised by shutil.move's copy fallback or by the post-move
os.chmod is caught by no handler and terminates the process instead of
being reported as an outcome; a delete failure is swallowed (the state
is unchanged and nothing reaches the returned outcome, the move
proceeding regardless); and no branch of placement — caught failure,
uncaught termination or success — leaves the source file deleted
without the target existing. -/
theorem c4_delete_and_failure_policy :
    (∀ (cfg : Cfg) (fs : FS) (p : PathM) (e : ExitSig),
      construct_path cfg fs p = .error e →
      rename_and_move cfg fs p = (.error e, fs)) ∧
    (∀ (cfg : Cfg) (fs : FS) (src dst : PathM),
      cfg.dry_run = false →
      dirExists fs (List.dropLast dst) = false →
      List.dropLast dst ∈ fs.failMkdir →
      move_file cfg fs src dst =
        (.ok ("Failed to create directory " ++ pathStr (List.dropLast dst) ++
          ": OSError", 1), fs)) ∧
    (∀ (cfg : Cfg) (fs : FS) (src dst : PathM),
      cfg.dry_run = false →
      dirExists fs (List.dropLast dst) = true →
      src ∈ fs.failMove →
      move_file cfg fs src dst =
        (.ok ("Failed to move " ++ pathStr src ++ " to " ++ pathStr dst ++
          ": shutil.Error", 1), fs)) ∧
    (∀ (cfg : Cfg) (fs : FS) (src dst : PathM),
      cfg.dry_run = false →
      dirExists fs (List.dropLast dst) = true →
      src ∉ fs.failMove →
      src ∈ fs.failMoveOS →
      move_file cfg fs src dst =
        (.error ⟨"Traceback: OSError raised by shutil.move", 1⟩, fs)) ∧
    (∀ (fs : FS) (p : PathM), p ∈ fs.failUnlink → unlinkFS fs p = fs) ∧
    (∀ (cfg : Cfg) (fs : FS) (p np : PathM) (info : VideoInfo),
      construct_path cfg fs p = .ok (np, info) →
      pathExists fs p = true →
      pathExists (rename_and_move cfg fs p).2 p = true ∨
      pathExists (rename_and_move cfg fs p).2 np = true) := by
  refine ⟨?_, ?_, ?_, ?_, ?_, ?_⟩
  · intro cfg fs p e h
    exact rename_and_move_error_of_construct cfg fs p e h
  · intro cfg fs src dst h1 h2 h3
    exact move_file_mkdir_fail cfg fs src dst h1 h2 h3
  · intro cfg fs src dst h1 h2 h3
    exact move_file_move_fail cfg fs src dst h1 h2 h3
  · intro cfg fs src dst h1 h2 h3 h4
    exact move_file_move_os_crash cfg fs src dst h1 h2 h3 h4
  · intro fs p h
    exact unlink_fail_swallowed fs p h
  · intro cfg fs p np info hcp hex
    exact rename_and_move_preserves cfg fs p np info hcp hex

/-- Witness for the amended claim C4 at concrete inputs. -/
theorem c4_delete_and_failure_policy_witness :
    rename_and_move { cfgMain with strict_matching := true } fsRandom
      srcRandom =
      (.error ⟨"Unable to extract UFC event number from RandomMovie mkv", 1⟩,
        fsRandom) ∧
    move_file cfgMain fsMkdirFail srcRandom dstNew =
      (.ok ("Failed to create directory dest/UFC 999 Test vs Case: OSError",
        1), fsMkdirFail) ∧
    move_file cfgMain fsMoveFail srcRandom ["dest", "moved.mkv"] =
      (.ok ("Failed to move downloads/RandomMovie.mkv to dest/moved.mkv" ++
        ": shutil.Error", 1), fsMoveFail) ∧
    move_file cfgMain fsMoveOSFail srcRandom ["dest", "moved.mkv"] =
      (.error ⟨"Traceback: OSError raised by shutil.move", 1⟩,
        fsMoveOSFail) ∧
    unlinkFS fsUnlinkFail exist720 = fsUnlinkFail ∧
    (pathExists (rename_and_move cfgMain fsConflict src1080).2 src1080 =
        true ∨
      pathExists (rename_and_move cfgMain fsConflict src1080).2 canon1080 =
        true) := by
  refine ⟨?_, ?_, ?_, ?_, ?_, ?_⟩
  · exact (c4_delete_and_failure_policy.1
      { cfgMain with strict_matching := true } fsRandom srcRandom
      ⟨"Unable to extract UFC event number from RandomMovie mkv", 1⟩ rfl)
  · exact (c4_delete_and_failure_policy.2.1 cfgMain fsMkdirFail srcRandom
      dstNew rfl rfl (by decide)).trans (by rfl)
  · exact (c4_delete_and_failure_policy.2.2.1 cfgMain fsMoveFail srcRandom
      ["dest", "moved.mkv"] rfl rfl (by decide)).trans (by rfl)
  · exact c4_delete_and_failure_policy.2.2.2.1 cfgMain fsMoveOSFail srcRandom
      ["dest", "moved.mkv"] rfl rfl (by decide) (by decide)
  · exact c4_delete_and_failure_policy.2.2.2.2.1 fsUnlinkFail exist720
      (by decide)
  · exact c4_delete_and_failure_policy.2.2.2.2.2 cfgMain fsConflict src1080
      canon1080 infoSrc1080 rfl rfl

/-- Claim C5: in the target folder holding the same event and edition
at 720p, placing the 1080p file deletes the existing file and moves the
new one into place (success outcome, old file gone, new file present,
source gone); placing the 480p file reports a failure and changes
nothing — source left in place, existing file untouched. -/
theorem c5_resolution_conflict :
    (rename_and_move cfgMain fsConflict src1080).1 = .ok
      ("Moved " ++ pathStr src1080 ++ " to " ++ pathStr canon1080, 0) ∧
    pathExists (rename_and_move cfgMain fsConflict src1080).2 exist720 =
      false ∧
    pathExists (rename_and_move cfgMain fsConflict src1080).2 canon1080 =
      true ∧
    pathExists (rename_and_move cfgMain fsConflict src1080).2 src1080 =
      false ∧
    (rename_and_move cfgMain fsConflict src480).1 = .ok
      ("File " ++ pathName exist720 ++ " already exists in " ++
        pathStr folder300 ++ " with a higher resolution.", 1) ∧
    (rename_and_move cfgMain fsConflict src480).2 = fsConflict := by
  refine ⟨?_, ?_, ?_, ?_, ?_, ?_⟩ <;> rfl

/-- Claim C6: on each side the rank function is a strict total order
over the four resolution values, with the asymmetric empty-value rule —
a missing incoming resolution ranks above every known one (99999), a
missing existing resolution ranks lowest (0) — and hence with both
resolutions missing the incoming file is preferred: in the concrete
run, the existing no-resolution file is deleted and the incoming
no-resolution file replaces it. -/
theorem c6_resolution_ranking :
    (∀ a ∈ ["", "720p", "1080p", "2160p"],
      ∀ b ∈ ["", "720p", "1080p", "2160p"],
      a = b ∨ resRankNew a < resRankNew b ∨ resRankNew b < resRankNew a) ∧
    (∀ a ∈ ["", "720p", "1080p", "2160p"],
      ∀ b ∈ ["", "720p", "1080p", "2160p"],
      a = b ∨ resRankOld a < resRankOld b ∨ resRankOld b < resRankOld a) ∧
    resRankNew "" > resRankNew "720p" ∧
    resRankOld "" < resRankOld "720p" ∧
    resRankNew "" > resRankOld "" ∧
    (rename_and_move cfgMain fsBothNoRes srcNoRes).1 = .ok
      ("Moved " ++ pathStr srcNoRes ++ " to " ++ pathStr canonNoRes, 0) ∧
    pathExists (rename_and_move cfgMain fsBothNoRes srcNoRes).2 existNoRes =
      false ∧
    pathExists (rename_and_move cfgMain fsBothNoRes srcNoRes).2 canonNoRes =
      true := by
  refine ⟨by decide, by decide, by decide, by decide, by decide, rfl, rfl,
    rfl⟩

/-- Claim C7, counterexample: a second run with the file already at its
target does error.  Running placement on the canonically named file —
exactly the state a successful first run leaves — computes the same
target, finds it existing (it is the file itself) and returns the
duplicate-target failure with exit signal 1 and nothing moved, rather
than the claimed no-op success. -/
theorem c7_counterexample :
    (rename_and_move cfgMain fsCanon exist720).1 = .ok
      ("File " ++ pathName exist720 ++ " already exists in " ++
        pathStr folder300, 1) ∧
    (rename_and_move cfgMain fsCanon exist720).2 = fsCanon := by
  exact ⟨rfl, rfl⟩

/-- Claim C7 as amended: placement never re-moves a file it already
successfully placed — a second run on the moved-away source path exits
with the missing-file message, and a run on the file at its exact
target reports the duplicate-target failure (exit signal 1) with the
file untouched, the failure being reported whether or not the existing
target is the same file; the "just a rename" success applies instead
when the computed target does not yet exist and the same-edition file
found in the target folder is the source itself, in which case the file
is renamed in place. -/
theorem c7_idempotence :
    (∀ (cfg : Cfg) (fs : FS) (p : PathM),
      pathExists fs p = false →
      rename_and_move cfg fs p =
        (.error ⟨"File " ++ pathStr p ++ " does not exist", 1⟩, fs)) ∧
    (∀ (cfg : Cfg) (fs : FS) (p np : PathM) (info : VideoInfo),
      construct_path cfg fs p = .ok (np, info) →
      pathExists fs np = true →
      rename_and_move cfg fs p =
        (.ok ("File " ++ pathName np ++ " already exists in " ++
          pathStr np.dropLast, 1), fs)) ∧
    (rename_and_move cfgMain fsRename srcPlain720).1 = .ok
      ("Moved " ++ pathStr srcPlain720 ++ " to " ++ pathStr exist720, 0) ∧
    pathExists (rename_and_move cfgMain fsRename srcPlain720).2 srcPlain720 =
      false ∧
    pathExists (rename_and_move cfgMain fsRename srcPlain720).2 exist720 =
      true := by
  refine ⟨?_, ?_, rfl, rfl, rfl⟩
  · intro cfg fs p h
    exact rename_and_move_missing_source cfg fs p h
  · intro cfg fs p np info hcp htgt
    exact rename_and_move_target_exists cfg fs p np info hcp htgt

/-- Witness for the amended claim C7 at concrete inputs. -/
theorem c7_idempotence_witness :
    rename_and_move cfgMain fsCanon src1080 =
      (.error ⟨"File downloads/UFC.300.Pereira.vs.Hill.1080p.mkv" ++
        " does not exist", 1⟩, fsCanon) ∧
    rename_and_move cfgMain fsCanon exist720 =
      (.ok ("File " ++ pathName exist720 ++ " already exists in " ++
        pathStr folder300, 1), fsCanon) := by
  constructor
  · exact (c7_idempotence.1 cfgMain fsCanon src1080 rfl).trans (by rfl)
  · exact c7_idempotence.2.1 cfgMain fsCanon exist720 exist720 infoCanon
      rfl rfl

/-- Claim C8, counterexample: the extracted resolution is not always
lower-case.  The IGNORECASE search returns the matched text in its
original casing, so the name UFC.229.720P.mkv yields the resolution
720P, a non-empty token containing an upper-case letter — refuting the
claim that the field is always the empty string or a lower-case
token. -/
theorem c8_counterexample :
    get_resolution (normalizeName "UFC.229.720P.mkv") = "720P" ∧
    "720P" ≠ "" ∧
    ("720P".data.any (fun c => isAlphaC c ∧ lowerNat c ≠ c.toNat)) = true := by
  refine ⟨rfl, by decide, by decide⟩

/-- Claim C8 as amended: for every input the extracted resolution is
either empty or a token of three or four digits followed by p or i
matched case-insensitively and returned in the casing the (substituted)
input has there; the aliases 4k and uhd are normalized to the literal
2160p before the search, and the first match wins. -/
theorem c8_resolution_shape :
    (∀ s : Chars, get_resolution s = "" ∨
      resShapeB (get_resolution s).data = true) ∧
    get_resolution (normalizeName "UFC.300.4K.mkv") = "2160p" ∧
    get_resolution (normalizeName "Event.UHD.mkv") = "2160p" ∧
    get_resolution (normalizeName "a 720p b 1080p") = "720p" := by
  refine ⟨?_, rfl, rfl, rfl⟩
  intro s
  exact get_resolution_shape s

/-- Claim C9: when no event-number pattern matches the file's own
normalized name but one matches the parent folder's normalized name,
every subsequent field — fighter names, edition, resolution — is
extracted from the parent-folder string, as one atomic fallback. -/
theorem c9_parent_folder_fallback (fs : FS) (p : PathM)
    (hex : pathExists fs p = true)
    (h1 : get_event_number (normalizeName (pathName p)) = "")
    (h2 : get_event_number (normalizeName (parentName p)) ≠ "") :
    mkVideoInfoNS fs p = .ok
      { event_number := get_event_number (normalizeName (parentName p))
        fighter_names := get_fighter_names (normalizeName (parentName p))
        edition := get_edition (normalizeName (parentName p))
        resolution := get_resolution (normalizeName (parentName p))
        path := p } := by
  simp only [mkVideoInfoNS, extractNS, extractCore, hex, h1, h2]
  simp [h2]

/-- Witness for claim C9: Video.mkv inside the folder UFC 300 Pereira
vs Hill extracts, non-strict, event number UFC 300 and fighter names
Pereira vs Hill. -/
theorem c9_parent_folder_fallback_witness :
    mkVideoInfoNS fsVideo pVideo = .ok
      { event_number := "UFC 300", fighter_names := "Pereira vs Hill",
        edition := Edition.MAIN_EVENT, resolution := "", path := pVideo } :=
  (c9_parent_folder_fallback fsVideo pVideo rfl rfl (by decide)).trans
    (by rfl)

/-- Claim C10, counterexample: the fallback search does not recurse
exactly one level.  In a tree whose fighter names appear only three
levels below the destination root, find_names returns those names,
while the one-level search the claim describes, applied to the same
tree, finds nothing. -/
theorem c10_counterexample :
    findNamesF fsDeep (fsFuel fsDeep) ["dest"] "UFC 229" =
      .ok "Khabib vs Mcgregor" ∧
    findNamesOneLevel fsDeep ["dest"] "UFC 229" = .ok "" := by
  exact ⟨rfl, rfl⟩

/-- Claim C10 as amended: when fighter-name extraction fails on the
primary name and strict mode is active, the fallback scans entries
under the configured destination root whose name contains the event
number case-insensitively, parses each candidate non-strict with no
further recursion triggers, recurses without depth bound into candidate
directories that have no fighter names, and accepts the first non-empty
result in depth-first enumeration order: names recorded three levels
deep are found; in the ordered tree the first matching candidate with
names wins (the case-insensitively matched directory, not the later
one, and the entry without an event number in its name is never
scanned); and the strict pipeline backfills the names of UFC.229.mkv
from that search. -/
theorem c10_recursive_fallback :
    findNamesF fsDeep (fsFuel fsDeep) ["dest"] "UFC 229" =
      .ok "Khabib vs Mcgregor" ∧
    findNamesF fsOrder (fsFuel fsOrder) ["dest"] "UFC 229" =
      .ok "Smith vs Jones" ∧
    (mkVideoInfo cfgMain fsOrder ["downloads", "UFC.229.mkv"] true).map
      (fun i => i.fighter_names) = .ok "Smith vs Jones" := by
  exact ⟨rfl, rfl, rfl⟩

end UfcScript
